import Mathlib

/-
Shallow embedding of the Bread Order App server (server.before_auth.js,
auth-enabled version): credential hashing, the in-memory session table,
and the HTTP handlers for /api/login, /api/logout, /api/orders,
/api/items and /api/users.

Modelling conventions:
* Persisted JSON collections are explicit values (List Order, List String,
  List User); each handler maps the collections it may write to their new
  value together with the HTTP response, mirroring the read-modify-write
  structure of the source.
* Request bodies are parsed JSON; a body is either a JSON parse failure,
  the JSON value null (whose property access throws in JS), or an object
  whose relevant fields are present with the expected JS type (`some v`)
  or absent/of another type (`none`) - absent and wrongly-typed fields
  take the same branch in every handler of the source.
* JS numbers for `qty` are modelled as Int (the handlers only test
  `typeof qty === 'number'` and never inspect fractional values).
* Randomness (session tokens, salts) is passed in as an explicit `fresh`
  argument.
-/

namespace BreadOrder

/-- Model of the external primitive crypto.pbkdf2Sync: an unspecified
deterministic function of (password, salt, iterations, keylen). The
development relies only on its determinism, which the real primitive has. -/
def pbkdf2Sync (password saltHex : String) (iterations keylen : Nat) : String :=
  String.intercalate ":" [password, saltHex, toString iterations, toString keylen]

/-- Stored password hash record, as produced by hashPassword in the source:
an algorithm tag, the iteration count, the salt and the derived hash. -/
structure PHash where
  algo : String
  iter : Nat
  salt : String
  hash : String
deriving DecidableEq, Repr

/-- hashPassword(password, saltHex, iter) from the source. `iter || 200000`
maps both an absent iteration count and 0 to 200000; a fresh random salt is
used when none is supplied (passed explicitly as `freshSalt`). -/
def hashPassword (password : String) (saltHex : Option String) (iter : Option Nat)
    (freshSalt : String) : PHash :=
  let iterations := match iter with
    | some i => if i = 0 then 200000 else i
    | none => 200000
  let salt := match saltHex with
    | some s => s
    | none => freshSalt
  { algo := "pbkdf2_sha256", iter := iterations, salt := salt,
    hash := pbkdf2Sync password salt iterations 32 }

/-- verifyPassword(password, ph) from the source: false when the record is
absent or its algorithm tag differs from pbkdf2_sha256, otherwise recompute
the hash with the stored salt and iteration count and compare
(crypto.timingSafeEqual, modelled as equality of the hex strings). -/
def verifyPassword (password : String) (ph : Option PHash) : Bool :=
  match ph with
  | none => false
  | some ph =>
    if ph.algo ≠ "pbkdf2_sha256" then false
    else (hashPassword password (some ph.salt) (some ph.iter) "").hash == ph.hash

/-- A session-table entry: the value stored under a token. -/
structure Session where
  username : String
  role : String
deriving DecidableEq, Repr

/-- The in-process session table (JS `const sessions = new Map()`).
The Map is observed only through get, set and delete, so an association
list with those operations is an observationally faithful model. -/
abbrev SessTable := List (String × Session)

/-- sessions.get(t) (and `|| null`): the entry stored under token t. -/
def getSess (m : SessTable) (t : String) : Option Session :=
  (m.find? (fun p => p.1 == t)).map Prod.snd

/-- sessions.delete(t): remove the entry under token t, if any. -/
def delSess (m : SessTable) (t : String) : SessTable :=
  m.filter (fun p => p.1 != t)

/-- sessions.set(t, s): bind token t to s, replacing any previous binding. -/
def setSess (m : SessTable) (t : String) (s : Session) : SessTable :=
  (t, s) :: delSess m t

/-- currentUser(req) from the source: read the session cookie (`tok`,
`none` when the header carries no session cookie); an empty cookie value is
falsy in JS and is treated like an absent one; otherwise look the token up
in the session table. -/
def currentUser (m : SessTable) (tok : Option String) : Option Session :=
  match tok with
  | none => none
  | some t => if t = "" then none else getSess m t

/-- One order record: `(item : string, qty : number)`. -/
structure Order where
  item : String
  qty : Int
deriving DecidableEq, Repr

/-- One user record of users.json. -/
structure User where
  username : String
  role : String
  password : PHash
deriving DecidableEq, Repr

/-- The JSON value a handler sends back as the response body. -/
inductive RBody where
  | errMsg (msg : String)
  | ordersArr (orders : List Order)
  | itemsArr (items : List String)
  | okTrue
  | okUser (username role : String)
deriving DecidableEq, Repr

/-- An HTTP response: status code and JSON body. -/
structure Resp where
  status : Nat
  body : RBody
deriving DecidableEq, Repr

/-- Outcome of parseBody for a request: the JSON failed to parse
(`parseError`, answered with 400 Invalid JSON), parsed to null
(`nullBody`), or parsed to some other value whose relevant fields are
projected into α. -/
inductive BodyP (α : Type) where
  | parseError
  | nullBody
  | parsed (val : α)
deriving DecidableEq, Repr

/-- Fields of a POST/PUT orders body: `some` when present with the JS type
the handler tests for, `none` otherwise. -/
structure OrderPayload where
  item : Option String
  qty : Option Int
deriving DecidableEq, Repr

/-- Field of a POST/PUT items body. -/
structure ItemPayload where
  name : Option String
deriving DecidableEq, Repr

/-- Fields of a POST /api/login body. -/
structure LoginPayload where
  username : Option String
  password : Option String
deriving DecidableEq, Repr

/-- Fields of a POST /api/users body. -/
structure UserNewPayload where
  username : Option String
  password : Option String
  role : Option String
deriving DecidableEq, Repr

/-- Fields of a PUT /api/users/:username body. -/
structure UserUpdPayload where
  password : Option String
  role : Option String
deriving DecidableEq, Repr

/-- Model of JS String.prototype.trim: drop leading and trailing
whitespace. Written with structural recursion so that concrete instances
evaluate inside the kernel (the library trim reduces only by compiled
code); the whitespace set is Char.isWhitespace. -/
def jsTrim (s : String) : String :=
  String.mk (((s.data.dropWhile Char.isWhitespace).reverse.dropWhile
    Char.isWhitespace).reverse)

/-- JS truthiness of an optional string field: absent and the empty string
are falsy. -/
def truthyStr : Option String → Bool
  | none => false
  | some s => s != ""

/-- parseInt on the :index URL segment followed by the handler's check
`!Number.isFinite(index) || index < 0 || index >= length`: `none` when the
segment did not parse to a finite number (`idx = none`) or is out of
[0, length); otherwise the index as a Nat. -/
def idxOk (idx : Option Int) (len : Nat) : Option Nat :=
  match idx with
  | none => none
  | some i => if i < 0 ∨ (len : Int) ≤ i then none else some i.toNat

/-- POST /api/orders: requireAuth, parse the body, check
`typeof item === 'string' && typeof qty === 'number'`, then append the
order and answer 201 with the full updated collection. -/
def postOrders (sessions : SessTable) (tok : Option String) (orders : List Order)
    (body : BodyP OrderPayload) : Resp × List Order :=
  match currentUser sessions tok with
  | none => (⟨401, .errMsg "Unauthorized"⟩, orders)
  | some _ =>
    match body with
    | .parseError => (⟨400, .errMsg "Invalid JSON"⟩, orders)
    | .nullBody => (⟨400, .errMsg "Invalid order format"⟩, orders)
    | .parsed p =>
      match p.item, p.qty with
      | some s, some n =>
        let orders' := orders ++ [⟨s, n⟩]
        (⟨201, .ordersArr orders'⟩, orders')
      | _, _ => (⟨400, .errMsg "Invalid order format"⟩, orders)

/-- DELETE /api/orders/:index: requireAuth, bounds check (404 Order not
found), then splice the record out and answer 200 with an ok flag. -/
def deleteOrders (sessions : SessTable) (tok : Option String) (orders : List Order)
    (idx : Option Int) : Resp × List Order :=
  match currentUser sessions tok with
  | none => (⟨401, .errMsg "Unauthorized"⟩, orders)
  | some _ =>
    match idxOk idx orders.length with
    | none => (⟨404, .errMsg "Order not found"⟩, orders)
    | some i =>
      let orders' := orders.eraseIdx i
      (⟨200, .okTrue⟩, orders')

/-- PUT /api/orders/:index: requireAuth, bounds check (404), parse the
body, format check, then overwrite the record in place and answer 200 with
the full updated collection. -/
def putOrders (sessions : SessTable) (tok : Option String) (orders : List Order)
    (idx : Option Int) (body : BodyP OrderPayload) : Resp × List Order :=
  match currentUser sessions tok with
  | none => (⟨401, .errMsg "Unauthorized"⟩, orders)
  | some _ =>
    match idxOk idx orders.length with
    | none => (⟨404, .errMsg "Order not found"⟩, orders)
    | some i =>
      match body with
      | .parseError => (⟨400, .errMsg "Invalid JSON"⟩, orders)
      | .nullBody => (⟨400, .errMsg "Invalid order format"⟩, orders)
      | .parsed p =>
        match p.item, p.qty with
        | some s, some n =>
          let orders' := orders.set i ⟨s, n⟩
          (⟨200, .ordersArr orders'⟩, orders')
        | _, _ => (⟨400, .errMsg "Invalid order format"⟩, orders)

/-- POST /api/items: requireAdmin, parse the body, name-type check, then
reject an empty trimmed name or a duplicate, else append and answer 201
with the full updated catalog. -/
def postItems (sessions : SessTable) (tok : Option String) (items : List String)
    (body : BodyP ItemPayload) : Resp × List String :=
  match currentUser sessions tok with
  | none => (⟨401, .errMsg "Unauthorized"⟩, items)
  | some me =>
    if me.role ≠ "admin" then (⟨403, .errMsg "Forbidden"⟩, items)
    else
      match body with
      | .parseError => (⟨400, .errMsg "Invalid JSON"⟩, items)
      | .nullBody => (⟨400, .errMsg "Invalid item format"⟩, items)
      | .parsed p =>
        match p.name with
        | none => (⟨400, .errMsg "Invalid item format"⟩, items)
        | some name =>
          let trimmed := jsTrim name
          if trimmed = "" ∨ trimmed ∈ items then
            (⟨400, .errMsg "Item name invalid or already exists"⟩, items)
          else
            let items' := items ++ [trimmed]
            (⟨201, .itemsArr items'⟩, items')

/-- PUT /api/items/:index: requireAdmin, bounds check (404 Item not
found), parse the body, name-type check, empty-name check, duplicate check
(skipped when the trimmed name equals the current one), then write the new
catalog and - when the name changed - rewrite every order whose item was
the old name, answering 200 with the full updated catalog. -/
def putItems (sessions : SessTable) (tok : Option String) (items : List String)
    (orders : List Order) (idx : Option Int) (body : BodyP ItemPayload) :
    Resp × List String × List Order :=
  match currentUser sessions tok with
  | none => (⟨401, .errMsg "Unauthorized"⟩, items, orders)
  | some me =>
    if me.role ≠ "admin" then (⟨403, .errMsg "Forbidden"⟩, items, orders)
    else
      match idxOk idx items.length with
      | none => (⟨404, .errMsg "Item not found"⟩, items, orders)
      | some i =>
        match body with
        | .parseError => (⟨400, .errMsg "Invalid JSON"⟩, items, orders)
        | .nullBody => (⟨400, .errMsg "Invalid item format"⟩, items, orders)
        | .parsed p =>
          match p.name with
          | none => (⟨400, .errMsg "Invalid item format"⟩, items, orders)
          | some name =>
            let trimmed := jsTrim name
            if trimmed = "" then (⟨400, .errMsg "Name cannot be empty"⟩, items, orders)
            else
              let oldName := items.getD i ""
              if trimmed ≠ oldName ∧ trimmed ∈ items then
                (⟨400, .errMsg "Name already exists"⟩, items, orders)
              else
                let items' := items.set i trimmed
                let orders' :=
                  if trimmed ≠ oldName then
                    orders.map (fun o => if o.item = oldName then ⟨trimmed, o.qty⟩ else o)
                  else orders
                (⟨200, .itemsArr items'⟩, items', orders')

/-- users.find(x => x.username === name). -/
def findUser (users : List User) (name : String) : Option User :=
  users.find? (fun u => u.username == name)

/-- POST /api/login: parse the body, look the username up, verify the
password, then mint a token (passed in as `freshTok`), store the session
and answer 200 with the user. Unknown username and failed verification
share one 401 Invalid credentials answer. A body without a password field
reaches pbkdf2 with undefined only when the user exists and the stored
algorithm tag matches; the thrown TypeError is caught by parseBody's
try/catch, which answers 400 Invalid JSON. -/
def loginHandler (users : List User) (sessions : SessTable) (body : BodyP LoginPayload)
    (freshTok : String) : Resp × SessTable :=
  match body with
  | .parseError => (⟨400, .errMsg "Invalid JSON"⟩, sessions)
  | .nullBody => (⟨401, .errMsg "Invalid credentials"⟩, sessions)
  | .parsed p =>
    match p.username with
    | none => (⟨401, .errMsg "Invalid credentials"⟩, sessions)
    | some name =>
      match findUser users name with
      | none => (⟨401, .errMsg "Invalid credentials"⟩, sessions)
      | some u =>
        match p.password with
        | none =>
          if u.password.algo ≠ "pbkdf2_sha256" then
            (⟨401, .errMsg "Invalid credentials"⟩, sessions)
          else (⟨400, .errMsg "Invalid JSON"⟩, sessions)
        | some pw =>
          if verifyPassword pw (some u.password) then
            (⟨200, .okUser u.username u.role⟩, setSess sessions freshTok ⟨u.username, u.role⟩)
          else (⟨401, .errMsg "Invalid credentials"⟩, sessions)

/-- POST /api/logout: delete the session under the cookie token when the
cookie is present and truthy, clear the cookie, answer 200 ok. -/
def logoutHandler (sessions : SessTable) (tok : Option String) : Resp × SessTable :=
  match tok with
  | none => (⟨200, .okTrue⟩, sessions)
  | some t =>
    if t = "" then (⟨200, .okTrue⟩, sessions)
    else (⟨200, .okTrue⟩, delSess sessions t)

/-- POST /api/users: requireAdmin, parse the body, require truthy username
and password, reject a duplicate username with 409, then append the user
(role admin only when the role field is exactly admin) with a freshly
salted password hash and answer 201 ok. -/
def postUsers (sessions : SessTable) (tok : Option String) (users : List User)
    (body : BodyP UserNewPayload) (freshSalt : String) : Resp × List User :=
  match currentUser sessions tok with
  | none => (⟨401, .errMsg "Unauthorized"⟩, users)
  | some me =>
    if me.role ≠ "admin" then (⟨403, .errMsg "Forbidden"⟩, users)
    else
      match body with
      | .parseError => (⟨400, .errMsg "Invalid JSON"⟩, users)
      | .nullBody => (⟨400, .errMsg "username and password required"⟩, users)
      | .parsed p =>
        if ¬ (truthyStr p.username ∧ truthyStr p.password) then
          (⟨400, .errMsg "username and password required"⟩, users)
        else
          let uname := p.username.getD ""
          if ∃ u ∈ users, u.username = uname then
            (⟨409, .errMsg "User exists"⟩, users)
          else
            let role := if p.role = some "admin" then "admin" else "user"
            let users' :=
              users ++ [⟨uname, role, hashPassword (p.password.getD "") none none freshSalt⟩]
            (⟨201, .okTrue⟩, users')

/-- Mutate the first user whose username matches, as Array.prototype.find
followed by in-place mutation does. -/
def updateFirst (users : List User) (uname : String) (f : User → User) : List User :=
  match users with
  | [] => []
  | u :: rest =>
    if u.username = uname then f u :: rest else u :: updateFirst rest uname f

/-- PUT /api/users/:username: requireAdmin, parse the body (property access
on a null body throws, caught as 400 Invalid JSON), 404 when no user has
that username, then overwrite password and/or role when the fields are
truthy and answer 200 ok. -/
def putUsers (sessions : SessTable) (tok : Option String) (users : List User)
    (uname : String) (body : BodyP UserUpdPayload) (freshSalt : String) : Resp × List User :=
  match currentUser sessions tok with
  | none => (⟨401, .errMsg "Unauthorized"⟩, users)
  | some me =>
    if me.role ≠ "admin" then (⟨403, .errMsg "Forbidden"⟩, users)
    else
      match body with
      | .parseError => (⟨400, .errMsg "Invalid JSON"⟩, users)
      | .nullBody => (⟨400, .errMsg "Invalid JSON"⟩, users)
      | .parsed p =>
        match findUser users uname with
        | none => (⟨404, .errMsg "Not found"⟩, users)
        | some _ =>
          let f := fun (u : User) =>
            let u1 := if truthyStr p.password then
                { u with password := hashPassword (p.password.getD "") none none freshSalt }
              else u
            if truthyStr p.role then
              { u1 with role := if p.role = some "admin" then "admin" else "user" }
            else u1
          (⟨200, .okTrue⟩, updateFirst users uname f)

/-- DELETE /api/users/:username: requireAdmin, 404 when no user has that
username, else splice the user out and answer 200 ok. -/
def deleteUsers (sessions : SessTable) (tok : Option String) (users : List User)
    (uname : String) : Resp × List User :=
  match currentUser sessions tok with
  | none => (⟨401, .errMsg "Unauthorized"⟩, users)
  | some me =>
    if me.role ≠ "admin" then (⟨403, .errMsg "Forbidden"⟩, users)
    else
      match users.findIdx? (fun u => u.username == uname) with
      | none => (⟨404, .errMsg "Not found"⟩, users)
      | some i => (⟨200, .okTrue⟩, users.eraseIdx i)

/-! Helper lemmas about the session table and index handling. -/

theorem getSess_setSess_self (m : SessTable) (t : String) (s : Session) :
    getSess (setSess m t s) t = some s := by
  simp [getSess, setSess, List.find?]

theorem getSess_delSess_self (m : SessTable) (t : String) :
    getSess (delSess m t) t = none := by
  have h : (delSess m t).find? (fun p => p.1 == t) = none := by
    rw [List.find?_eq_none]
    intro x hx
    have hxm := (List.mem_filter.mp hx).2
    simp only [bne_iff_ne, ne_eq, decide_eq_true_eq] at hxm
    simpa using hxm
  simp [getSess, h]

theorem delSess_eq_of_getSess_none (m : SessTable) (t : String)
    (h : getSess m t = none) : delSess m t = m := by
  have hf : m.find? (fun p => p.1 == t) = none := by
    simpa [getSess, Option.map_eq_none'] using h
  rw [List.find?_eq_none] at hf
  unfold delSess
  rw [List.filter_eq_self]
  intro p hp
  have := hf p hp
  simpa using this

theorem idxOk_of_lt (k len : Nat) (h : k < len) :
    idxOk (some (k : Int)) len = some k := by
  have h1 : ¬ ((k : Int) < 0) := by omega
  have h2 : ¬ ((len : Int) ≤ (k : Int)) := by exact_mod_cast Nat.not_le.mpr h
  simp [idxOk, h1, h2]

theorem idxOk_none_of_out (i : Int) (len : Nat) (h : i < 0 ∨ (len : Int) ≤ i) :
    idxOk (some i) len = none := by
  simp [idxOk, h]

/-! Claims. -/

/-- C7: for every password p and every stored hash produced by
hashPassword(p) (with its recorded salt and iteration count),
verifyPassword(p, storedHash) returns true; and for every stored hash whose
algorithm tag is not pbkdf2_sha256, verifyPassword returns false. -/
theorem C7_verify_roundtrip_and_algo_mismatch :
    (∀ (p : String) (saltHex : Option String) (iter : Option Nat) (freshSalt : String),
      verifyPassword p (some (hashPassword p saltHex iter freshSalt)) = true) ∧
    (∀ (p : String) (ph : PHash), ph.algo ≠ "pbkdf2_sha256" →
      verifyPassword p (some ph) = false) := by
  constructor
  · intro p saltHex iter freshSalt
    cases iter with
    | none => simp [verifyPassword, hashPassword]
    | some i =>
      by_cases hi : i = 0 <;> simp [verifyPassword, hashPassword, hi]
  · intro p ph h
    simp [verifyPassword, h]

/-- Witness for C7 at concrete inputs. -/
theorem C7_verify_roundtrip_and_algo_mismatch_witness :
    verifyPassword "pw" (some (hashPassword "pw" none (some 7) "s")) = true ∧
    verifyPassword "pw" (some ⟨"md5", 1, "s", "h"⟩) = false :=
  ⟨C7_verify_roundtrip_and_algo_mismatch.1 "pw" none (some 7) "s",
   C7_verify_roundtrip_and_algo_mismatch.2 "pw" ⟨"md5", 1, "s", "h"⟩ (by decide)⟩

/-- C5: for every stored user and the correct password, login succeeds and
returns a token for which currentUser resolves to that user's username and
role; after logout of that token, currentUser resolves to none; and logout
of a token not in the session table leaves the table unchanged. -/
theorem C5_login_logout_lifecycle (users : List User) (sessions : SessTable)
    (name pw freshTok t : String) (u : User)
    (hu : findUser users name = some u)
    (hv : verifyPassword pw (some u.password) = true)
    (hf : freshTok ≠ "")
    (ht : getSess sessions t = none) :
    (loginHandler users sessions (.parsed ⟨some name, some pw⟩) freshTok).1
      = ⟨200, .okUser u.username u.role⟩ ∧
    currentUser (loginHandler users sessions (.parsed ⟨some name, some pw⟩) freshTok).2
      (some freshTok) = some ⟨u.username, u.role⟩ ∧
    currentUser
      (logoutHandler
        (loginHandler users sessions (.parsed ⟨some name, some pw⟩) freshTok).2
        (some freshTok)).2
      (some freshTok) = none ∧
    (logoutHandler sessions (some t)).2 = sessions := by
  have hlogin :
      loginHandler users sessions (.parsed ⟨some name, some pw⟩) freshTok
        = (⟨200, .okUser u.username u.role⟩,
           setSess sessions freshTok ⟨u.username, u.role⟩) := by
    simp [loginHandler, hu, hv]
  refine ⟨by rw [hlogin], ?_, ?_, ?_⟩
  · rw [hlogin]
    simp [currentUser, hf, getSess_setSess_self]
  · rw [hlogin]
    simp only [logoutHandler]
    rw [if_neg hf]
    simp [currentUser, hf, setSess, getSess_delSess_self,
      delSess_eq_of_getSess_none]
  · by_cases hte : t = ""
    · simp [logoutHandler, hte]
    · simp [logoutHandler, hte, delSess_eq_of_getSess_none sessions t ht]

/-- Witness for C5 at concrete inputs. -/
theorem C5_login_logout_lifecycle_witness :
    (loginHandler [⟨"admin", "admin", hashPassword "pw" none none "sa"⟩] []
        (.parsed ⟨some "admin", some "pw"⟩) "tok").1
      = ⟨200, .okUser "admin" "admin"⟩ :=
  (C5_login_logout_lifecycle [⟨"admin", "admin", hashPassword "pw" none none "sa"⟩]
    [] "admin" "pw" "tok" "zz" ⟨"admin", "admin", hashPassword "pw" none none "sa"⟩
    (by decide) (by decide) (by decide) (by decide)).1

/-- C6: a login with an unknown username and a login with a known username
but wrong password produce identical 401 Invalid credentials responses and
leave the session table unchanged (two-run indistinguishability of the
failure branches, timing excluded). -/
theorem C6_login_failure_indistinguishable
    (users1 users2 : List User) (s1 s2 : SessTable)
    (n1 pw1 ft1 n2 pw2 ft2 : String)
    (h1 : ∀ u, findUser users1 n1 = some u → verifyPassword pw1 (some u.password) = false)
    (h2 : ∀ u, findUser users2 n2 = some u → verifyPassword pw2 (some u.password) = false) :
    loginHandler users1 s1 (.parsed ⟨some n1, some pw1⟩) ft1
      = (⟨401, .errMsg "Invalid credentials"⟩, s1) ∧
    loginHandler users2 s2 (.parsed ⟨some n2, some pw2⟩) ft2
      = (⟨401, .errMsg "Invalid credentials"⟩, s2) ∧
    (loginHandler users1 s1 (.parsed ⟨some n1, some pw1⟩) ft1).1
      = (loginHandler users2 s2 (.parsed ⟨some n2, some pw2⟩) ft2).1 := by
  have k1 : loginHandler users1 s1 (.parsed ⟨some n1, some pw1⟩) ft1
      = (⟨401, .errMsg "Invalid credentials"⟩, s1) := by
    cases hfu : findUser users1 n1 with
    | none => simp [loginHandler, hfu]
    | some u => simp [loginHandler, hfu, h1 u hfu]
  have k2 : loginHandler users2 s2 (.parsed ⟨some n2, some pw2⟩) ft2
      = (⟨401, .errMsg "Invalid credentials"⟩, s2) := by
    cases hfu : findUser users2 n2 with
    | none => simp [loginHandler, hfu]
    | some u => simp [loginHandler, hfu, h2 u hfu]
  exact ⟨k1, k2, by rw [k1, k2]⟩

/-- Witness for C6 at concrete inputs: unknown user versus wrong password. -/
theorem C6_login_failure_indistinguishable_witness :
    loginHandler [] [] (.parsed ⟨some "ghost", some "x"⟩) "t1"
      = (⟨401, .errMsg "Invalid credentials"⟩, []) ∧
    loginHandler [⟨"admin", "admin", hashPassword "pw" none none "sa"⟩] []
        (.parsed ⟨some "admin", some "wrong"⟩) "t2"
      = (⟨401, .errMsg "Invalid credentials"⟩, []) :=
  ⟨(C6_login_failure_indistinguishable [] [⟨"admin", "admin", hashPassword "pw" none none "sa"⟩]
      [] [] "ghost" "x" "t1" "admin" "wrong" "t2"
      (by intro u hu; simp [findUser] at hu)
      (by intro u hu; simp [findUser] at hu; rw [← hu]; decide)).1,
   (C6_login_failure_indistinguishable [] [⟨"admin", "admin", hashPassword "pw" none none "sa"⟩]
      [] [] "ghost" "x" "t1" "admin" "wrong" "t2"
      (by intro u hu; simp [findUser] at hu)
      (by intro u hu; simp [findUser] at hu; rw [← hu]; decide)).2.1⟩

/-- C1 counterexample: an authenticated DELETE /api/orders/0 on a
one-order collection succeeds with 200, but its body is the ok flag, not
the (empty) updated collection - so not every mutating operation returns
the entire updated collection. -/
theorem C1_counterexample :
    (deleteOrders [("t", ⟨"a", "user"⟩)] (some "t") [⟨"Rye", 2⟩] (some 0)).1.status = 200 ∧
    (deleteOrders [("t", ⟨"a", "user"⟩)] (some "t") [⟨"Rye", 2⟩] (some 0)).2 = [] ∧
    (deleteOrders [("t", ⟨"a", "user"⟩)] (some "t") [⟨"Rye", 2⟩] (some 0)).1.body
      ≠ RBody.ordersArr
          (deleteOrders [("t", ⟨"a", "user"⟩)] (some "t") [⟨"Rye", 2⟩] (some 0)).2 := by
  refine ⟨rfl, rfl, ?_⟩
  decide

/-- C1 amended: every successful POST (append) and PUT (replace/rename) on
orders and items answers with the entire updated collection; the one
DELETE route (orders) instead answers with an ok flag. -/
theorem C1_success_response_bodies (sessions : SessTable) (tok : Option String)
    (orders : List Order) (items : List String) (idx : Option Int)
    (ob : BodyP OrderPayload) (ib : BodyP ItemPayload) :
    ((postOrders sessions tok orders ob).1.status = 201 →
      (postOrders sessions tok orders ob).1.body
        = RBody.ordersArr (postOrders sessions tok orders ob).2) ∧
    ((putOrders sessions tok orders idx ob).1.status = 200 →
      (putOrders sessions tok orders idx ob).1.body
        = RBody.ordersArr (putOrders sessions tok orders idx ob).2) ∧
    ((postItems sessions tok items ib).1.status = 201 →
      (postItems sessions tok items ib).1.body
        = RBody.itemsArr (postItems sessions tok items ib).2) ∧
    ((putItems sessions tok items orders idx ib).1.status = 200 →
      (putItems sessions tok items orders idx ib).1.body
        = RBody.itemsArr (putItems sessions tok items orders idx ib).2.1) ∧
    ((deleteOrders sessions tok orders idx).1.status = 200 →
      (deleteOrders sessions tok orders idx).1.body = RBody.okTrue) := by
  refine ⟨?_, ?_, ?_, ?_, ?_⟩
  · unfold postOrders
    repeat' split
    all_goals dsimp only
    repeat' split
    all_goals intro h
    all_goals first
      | rfl
      | simp at h
      | (split_ifs at h ⊢ <;> first | rfl | simp at h)
  · unfold putOrders
    repeat' split
    all_goals dsimp only
    repeat' split
    all_goals intro h
    all_goals first
      | rfl
      | simp at h
      | (split_ifs at h ⊢ <;> first | rfl | simp at h)
  · unfold postItems
    repeat' split
    all_goals dsimp only
    repeat' split
    all_goals intro h
    all_goals first
      | rfl
      | simp at h
      | (split_ifs at h ⊢ <;> first | rfl | simp at h)
  · unfold putItems
    repeat' split
    all_goals dsimp only
    repeat' split
    all_goals intro h
    all_goals first
      | rfl
      | simp at h
      | (split_ifs at h ⊢ <;> first | rfl | simp at h)
  · unfold deleteOrders
    repeat' split
    all_goals dsimp only
    repeat' split
    all_goals intro h
    all_goals first
      | rfl
      | simp at h
      | (split_ifs at h ⊢ <;> first | rfl | simp at h)

/-- Witness for C1's amended theorem at a concrete successful POST. -/
theorem C1_success_response_bodies_witness :
    (postOrders [("t", ⟨"a", "user"⟩)] (some "t") [] (.parsed ⟨some "Rye", some 3⟩)).1.body
      = RBody.ordersArr
          (postOrders [("t", ⟨"a", "user"⟩)] (some "t") [] (.parsed ⟨some "Rye", some 3⟩)).2 :=
  (C1_success_response_bodies [("t", ⟨"a", "user"⟩)] (some "t") [] [] none
    (.parsed ⟨some "Rye", some 3⟩) .parseError).1 (by decide)

/-- C3 counterexample: an authenticated POST /api/orders whose body has
qty 0 is not rejected with 400; it is accepted with 201 and the stored
collection then holds an order with a non-positive quantity. -/
theorem C3_counterexample :
    (postOrders [("t", ⟨"a", "user"⟩)] (some "t") [] (.parsed ⟨some "Rye", some 0⟩)).1.status
      = 201 ∧
    (postOrders [("t", ⟨"a", "user"⟩)] (some "t") [] (.parsed ⟨some "Rye", some 0⟩)).2
      = [⟨"Rye", 0⟩] ∧
    ¬ (0 : Int) > 0 := by
  refine ⟨rfl, rfl, by decide⟩

/-- C3 amended: the order handlers validate only the JS types of the body
fields (item a string, qty a number); an authenticated POST appends and an
authenticated in-bounds PUT replaces even when the quantity is zero or
negative, so the invariant qty > 0 is not enforced by the server. -/
theorem C3_nonpositive_qty_accepted (sessions : SessTable) (tok : Option String)
    (me : Session) (orders : List Order) (s : String) (n : Int) (k : Nat)
    (hme : currentUser sessions tok = some me)
    (hn : n ≤ 0) (hk : k < orders.length) :
    postOrders sessions tok orders (.parsed ⟨some s, some n⟩)
      = (⟨201, .ordersArr (orders ++ [⟨s, n⟩])⟩, orders ++ [⟨s, n⟩]) ∧
    putOrders sessions tok orders (some (k : Int)) (.parsed ⟨some s, some n⟩)
      = (⟨200, .ordersArr (orders.set k ⟨s, n⟩)⟩, orders.set k ⟨s, n⟩) := by
  constructor
  · simp [postOrders, hme]
  · simp [putOrders, hme, idxOk_of_lt k orders.length hk]

/-- Witness for C3's amended theorem at a concrete input with qty -2. -/
theorem C3_nonpositive_qty_accepted_witness :
    postOrders [("t", ⟨"a", "user"⟩)] (some "t") [⟨"Rye", 1⟩]
        (.parsed ⟨some "Rye", some (-2)⟩)
      = (⟨201, .ordersArr [⟨"Rye", 1⟩, ⟨"Rye", -2⟩]⟩, [⟨"Rye", 1⟩, ⟨"Rye", -2⟩]) :=
  (C3_nonpositive_qty_accepted [("t", ⟨"a", "user"⟩)] (some "t") ⟨"a", "user"⟩
    [⟨"Rye", 1⟩] "Rye" (-2) 0 (by decide) (by decide) (by decide)).1

/-- C4: a request with no valid session to any auth-gated route is
answered 401 Unauthorized, and a request with a valid non-admin session to
any admin-gated route is answered 403 Forbidden; in both cases the
addressed collections are left unchanged. -/
theorem C4_role_gates (sessions : SessTable) (tok : Option String)
    (orders : List Order) (items : List String) (users : List User)
    (idx : Option Int) (ob : BodyP OrderPayload) (ib : BodyP ItemPayload)
    (nb : BodyP UserNewPayload) (ub : BodyP UserUpdPayload) (uname fresh : String) :
    (currentUser sessions tok = none →
      postOrders sessions tok orders ob = (⟨401, .errMsg "Unauthorized"⟩, orders) ∧
      putOrders sessions tok orders idx ob = (⟨401, .errMsg "Unauthorized"⟩, orders) ∧
      deleteOrders sessions tok orders idx = (⟨401, .errMsg "Unauthorized"⟩, orders) ∧
      postItems sessions tok items ib = (⟨401, .errMsg "Unauthorized"⟩, items) ∧
      putItems sessions tok items orders idx ib
        = (⟨401, .errMsg "Unauthorized"⟩, items, orders) ∧
      postUsers sessions tok users nb fresh = (⟨401, .errMsg "Unauthorized"⟩, users) ∧
      putUsers sessions tok users uname ub fresh = (⟨401, .errMsg "Unauthorized"⟩, users) ∧
      deleteUsers sessions tok users uname = (⟨401, .errMsg "Unauthorized"⟩, users)) ∧
    (∀ me, currentUser sessions tok = some me → me.role ≠ "admin" →
      postItems sessions tok items ib = (⟨403, .errMsg "Forbidden"⟩, items) ∧
      putItems sessions tok items orders idx ib
        = (⟨403, .errMsg "Forbidden"⟩, items, orders) ∧
      postUsers sessions tok users nb fresh = (⟨403, .errMsg "Forbidden"⟩, users) ∧
      putUsers sessions tok users uname ub fresh = (⟨403, .errMsg "Forbidden"⟩, users) ∧
      deleteUsers sessions tok users uname = (⟨403, .errMsg "Forbidden"⟩, users)) := by
  constructor
  · intro h
    refine ⟨?_, ?_, ?_, ?_, ?_, ?_, ?_, ?_⟩ <;>
      simp [postOrders, putOrders, deleteOrders, postItems, putItems,
        postUsers, putUsers, deleteUsers, h]
  · intro me h hr
    refine ⟨?_, ?_, ?_, ?_, ?_⟩ <;>
      simp [postItems, putItems, postUsers, putUsers, deleteUsers, h, hr]

/-- Witness for C4 at concrete inputs: an unauthenticated POST to orders
and a non-admin POST to items. -/
theorem C4_role_gates_witness :
    postOrders [] none [] (.parsed ⟨some "Rye", some 1⟩)
      = (⟨401, .errMsg "Unauthorized"⟩, []) ∧
    postItems [("t", ⟨"b", "user"⟩)] (some "t") ["Rye"] (.parsed ⟨some "Spelt"⟩)
      = (⟨403, .errMsg "Forbidden"⟩, ["Rye"]) :=
  ⟨((C4_role_gates [] none [] [] [] none (.parsed ⟨some "Rye", some 1⟩)
      (.parsed ⟨some "Spelt"⟩) .parseError .parseError "x" "s").1 (by decide)).1,
   ((C4_role_gates [("t", ⟨"b", "user"⟩)] (some "t") [] ["Rye"] [] none
      (.parsed ⟨some "Rye", some 1⟩) (.parsed ⟨some "Spelt"⟩) .parseError .parseError
      "x" "s").2 ⟨"b", "user"⟩ (by decide) (by decide)).1⟩

/-- C8: an authenticated DELETE of an in-bounds index k removes exactly
the record at position k: the result is the eraseIdx of the collection,
records at indices below k are unchanged, and every record previously at
an index above k moves down by one position. -/
theorem C8_delete_shifts (sessions : SessTable) (tok : Option String) (me : Session)
    (orders : List Order) (k : Nat)
    (hme : currentUser sessions tok = some me) (hk : k < orders.length) :
    (deleteOrders sessions tok orders (some (k : Int))).1 = ⟨200, .okTrue⟩ ∧
    (deleteOrders sessions tok orders (some (k : Int))).2 = orders.eraseIdx k ∧
    (∀ j, j < k → (orders.eraseIdx k)[j]? = orders[j]?) ∧
    (∀ j, k ≤ j → (orders.eraseIdx k)[j]? = orders[j + 1]?) := by
  have hdel : deleteOrders sessions tok orders (some (k : Int))
      = (⟨200, .okTrue⟩, orders.eraseIdx k) := by
    simp [deleteOrders, hme, idxOk_of_lt k orders.length hk]
  refine ⟨by rw [hdel], by rw [hdel], ?_, ?_⟩
  · intro j hj
    rw [List.getElem?_eraseIdx, if_pos hj]
  · intro j hj
    rw [List.getElem?_eraseIdx, if_neg (by omega)]

/-- Witness for C8 at a concrete input. -/
theorem C8_delete_shifts_witness :
    (deleteOrders [("t", ⟨"a", "user"⟩)] (some "t")
        [⟨"A", 1⟩, ⟨"B", 2⟩, ⟨"C", 3⟩] (some ((1 : Nat) : Int))).2
      = [⟨"A", 1⟩, ⟨"C", 3⟩] := by
  have h := (C8_delete_shifts [("t", ⟨"a", "user"⟩)] (some "t") ⟨"a", "user"⟩
    [⟨"A", 1⟩, ⟨"B", 2⟩, ⟨"C", 3⟩] 1 (by decide) (by decide)).2.1
  rw [h]
  decide

/-- C9: for an authorized request addressing an index outside [0, length)
of the addressed collection, PUT and DELETE on orders and PUT on items
answer 404 NotFound and leave the collections unchanged. -/
theorem C9_out_of_bounds_404 (sessions : SessTable) (tok : Option String) (me : Session)
    (orders : List Order) (items : List String) (i : Int)
    (ob : BodyP OrderPayload) (ib : BodyP ItemPayload)
    (hme : currentUser sessions tok = some me) (hadmin : me.role = "admin") :
    ((i < 0 ∨ (orders.length : Int) ≤ i) →
      putOrders sessions tok orders (some i) ob
        = (⟨404, .errMsg "Order not found"⟩, orders) ∧
      deleteOrders sessions tok orders (some i)
        = (⟨404, .errMsg "Order not found"⟩, orders)) ∧
    ((i < 0 ∨ (items.length : Int) ≤ i) →
      putItems sessions tok items orders (some i) ib
        = (⟨404, .errMsg "Item not found"⟩, items, orders)) := by
  constructor
  · intro h
    constructor
    · simp [putOrders, hme, idxOk_none_of_out i orders.length h]
    · simp [deleteOrders, hme, idxOk_none_of_out i orders.length h]
  · intro h
    simp [putItems, hme, hadmin, idxOk_none_of_out i items.length h]

/-- Witness for C9 at concrete inputs: a negative index and an index
equal to the length. -/
theorem C9_out_of_bounds_404_witness :
    putOrders [("t", ⟨"a", "admin"⟩)] (some "t") [⟨"A", 1⟩] (some (-1))
        (.parsed ⟨some "B", some 2⟩)
      = (⟨404, .errMsg "Order not found"⟩, [⟨"A", 1⟩]) ∧
    putItems [("t", ⟨"a", "admin"⟩)] (some "t") ["Rye"] [] (some 1)
        (.parsed ⟨some "Spelt"⟩)
      = (⟨404, .errMsg "Item not found"⟩, ["Rye"], []) :=
  ⟨((C9_out_of_bounds_404 [("t", ⟨"a", "admin"⟩)] (some "t") ⟨"a", "admin"⟩
      [⟨"A", 1⟩] ["Rye"] (-1) (.parsed ⟨some "B", some 2⟩) (.parsed ⟨some "Spelt"⟩)
      (by decide) (by decide)).1 (by decide)).1,
   (C9_out_of_bounds_404 [("t", ⟨"a", "admin"⟩)] (some "t") ⟨"a", "admin"⟩
      [] ["Rye"] 1 (.parsed ⟨some "B", some 2⟩) (.parsed ⟨some "Spelt"⟩)
      (by decide) (by decide)).2 (by decide)⟩

/-- C2: for an admin request on an in-bounds catalog index i with a new
name whose trimmed form is non-empty and (unless equal to the current name
at i) not already present, the rename succeeds: the catalog becomes the
old catalog with position i set to the trimmed name, every order whose
item equals the old name is rewritten to the new name while all other
orders are unchanged (stated positionally via map), and the resulting
catalog contains the new name exactly once (catalog names are unique, the
system invariant, hence the Nodup hypothesis). -/
theorem C2_rename_cascade (sessions : SessTable) (tok : Option String) (me : Session)
    (items : List String) (orders : List Order) (i : Nat) (name : String)
    (hme : currentUser sessions tok = some me) (hadmin : me.role = "admin")
    (hi : i < items.length) (hnd : items.Nodup)
    (ht : jsTrim name ≠ "")
    (hdup : jsTrim name = items[i] ∨ jsTrim name ∉ items) :
    (putItems sessions tok items orders (some (i : Int)) (.parsed ⟨some name⟩)).1.status
      = 200 ∧
    (putItems sessions tok items orders (some (i : Int)) (.parsed ⟨some name⟩)).2.1
      = items.set i (jsTrim name) ∧
    (items.set i (jsTrim name))[i]? = some (jsTrim name) ∧
    (putItems sessions tok items orders (some (i : Int)) (.parsed ⟨some name⟩)).2.2
      = orders.map (fun o => if o.item = items[i] then ⟨jsTrim name, o.qty⟩ else o) ∧
    (items.set i (jsTrim name)).count (jsTrim name) = 1 := by
  have hmem_old : items[i] ∈ items := List.getElem_mem hi
  have hopt : items[i]? = some items[i] := List.getElem?_eq_getElem hi
  rcases hdup with heq | hnotmem
  · have ht2 : items[i] ≠ "" := heq ▸ ht
    have hput : putItems sessions tok items orders (some (i : Int)) (.parsed ⟨some name⟩)
        = (⟨200, .itemsArr (items.set i (jsTrim name))⟩, items.set i (jsTrim name),
           orders) := by
      simp [putItems, hme, hadmin, idxOk_of_lt i items.length hi, hopt, heq, ht2]
    have hmap : orders.map (fun o => if o.item = items[i] then ⟨jsTrim name, o.qty⟩ else o)
        = orders := by
      have hcongr : ∀ o ∈ orders,
          (if o.item = items[i] then (⟨jsTrim name, o.qty⟩ : Order) else o) = id o := by
        intro o _
        cases o with
        | mk it q =>
          by_cases ho : it = items[i]
          · dsimp only
            rw [if_pos ho, heq, ho]
            rfl
          · dsimp only
            rw [if_neg ho]
            rfl
      rw [List.map_congr_left hcongr, List.map_id]
    refine ⟨by rw [hput], by rw [hput], List.getElem?_set_self hi, by rw [hput, hmap], ?_⟩
    rw [List.count_set (jsTrim name) (jsTrim name) items i hi]
    rw [List.count_eq_one_of_mem hnd (heq ▸ hmem_old)]
    have hb : (items[i] == jsTrim name) = true := beq_iff_eq.mpr heq.symm
    simp [hb]
  · have hneq : jsTrim name ≠ items[i] := fun hc => hnotmem (hc ▸ hmem_old)
    have hput : putItems sessions tok items orders (some (i : Int)) (.parsed ⟨some name⟩)
        = (⟨200, .itemsArr (items.set i (jsTrim name))⟩, items.set i (jsTrim name),
           orders.map (fun o => if o.item = items[i] then ⟨jsTrim name, o.qty⟩ else o)) := by
      simp [putItems, hme, hadmin, idxOk_of_lt i items.length hi, hopt, ht, hneq, hnotmem]
    refine ⟨by rw [hput], by rw [hput], List.getElem?_set_self hi, by rw [hput], ?_⟩
    rw [List.count_set (jsTrim name) (jsTrim name) items i hi]
    rw [List.count_eq_zero.mpr hnotmem]
    have hne2 : (items[i] == jsTrim name) = false :=
      beq_eq_false_iff_ne.mpr (fun hc => hnotmem (hc ▸ hmem_old))
    simp [hne2]

/-- Witness for C2 at a concrete input: renaming Rye to Spelt cascades
into the one order that referenced Rye and leaves the other order alone. -/
theorem C2_rename_cascade_witness :
    (putItems [("t", ⟨"a", "admin"⟩)] (some "t") ["Rye", "Sourdough"]
        [⟨"Rye", 2⟩, ⟨"Sourdough", 1⟩] (some ((0 : Nat) : Int))
        (.parsed ⟨some "Spelt"⟩)).2.1
      = ["Spelt", "Sourdough"] ∧
    (putItems [("t", ⟨"a", "admin"⟩)] (some "t") ["Rye", "Sourdough"]
        [⟨"Rye", 2⟩, ⟨"Sourdough", 1⟩] (some ((0 : Nat) : Int))
        (.parsed ⟨some "Spelt"⟩)).2.2
      = [⟨"Spelt", 2⟩, ⟨"Sourdough", 1⟩] := by
  have h := C2_rename_cascade [("t", ⟨"a", "admin"⟩)] (some "t") ⟨"a", "admin"⟩
    ["Rye", "Sourdough"] [⟨"Rye", 2⟩, ⟨"Sourdough", 1⟩] 0 "Spelt"
    (by decide) (by decide) (by decide) (by decide) (by decide)
    (by right; decide)
  refine ⟨?_, ?_⟩
  · rw [h.2.1]; decide
  · rw [h.2.2.2.1]; decide

/-- The error statuses the API produces. -/
def errStatus (n : Nat) : Prop :=
  n = 400 ∨ n = 401 ∨ n = 403 ∨ n = 404 ∨ n = 409

theorem postOrders_state (s : SessTable) (t : Option String) (o : List Order)
    (b : BodyP OrderPayload) :
    (postOrders s t o b).2 = o ∨ (postOrders s t o b).1.status = 201 := by
  unfold postOrders
  dsimp only
  repeat' split
  all_goals first | (left; rfl) | (right; rfl)

theorem putOrders_state (s : SessTable) (t : Option String) (o : List Order)
    (idx : Option Int) (b : BodyP OrderPayload) :
    (putOrders s t o idx b).2 = o ∨ (putOrders s t o idx b).1.status = 200 := by
  unfold putOrders
  dsimp only
  repeat' split
  all_goals first | (left; rfl) | (right; rfl)

theorem deleteOrders_state (s : SessTable) (t : Option String) (o : List Order)
    (idx : Option Int) :
    (deleteOrders s t o idx).2 = o ∨ (deleteOrders s t o idx).1.status = 200 := by
  unfold deleteOrders
  dsimp only
  repeat' split
  all_goals first | (left; rfl) | (right; rfl)

theorem postItems_state (s : SessTable) (t : Option String) (it : List String)
    (b : BodyP ItemPayload) :
    (postItems s t it b).2 = it ∨ (postItems s t it b).1.status = 201 := by
  unfold postItems
  dsimp only
  repeat' split
  all_goals first | (left; rfl) | (right; rfl)

theorem putItems_state (s : SessTable) (t : Option String) (it : List String)
    (o : List Order) (idx : Option Int) (b : BodyP ItemPayload) :
    ((putItems s t it o idx b).2.1 = it ∧ (putItems s t it o idx b).2.2 = o) ∨
      (putItems s t it o idx b).1.status = 200 := by
  unfold putItems
  dsimp only
  repeat' split
  all_goals first | (left; exact ⟨rfl, rfl⟩) | (right; rfl)

theorem postUsers_state (s : SessTable) (t : Option String) (us : List User)
    (b : BodyP UserNewPayload) (fresh : String) :
    (postUsers s t us b fresh).2 = us ∨ (postUsers s t us b fresh).1.status = 201 := by
  unfold postUsers
  dsimp only
  repeat' split
  all_goals first | (left; rfl) | (right; rfl)

theorem putUsers_state (s : SessTable) (t : Option String) (us : List User)
    (uname : String) (b : BodyP UserUpdPayload) (fresh : String) :
    (putUsers s t us uname b fresh).2 = us ∨
      (putUsers s t us uname b fresh).1.status = 200 := by
  unfold putUsers
  dsimp only
  repeat' split
  all_goals first | (left; rfl) | (right; rfl)

theorem deleteUsers_state (s : SessTable) (t : Option String) (us : List User)
    (uname : String) :
    (deleteUsers s t us uname).2 = us ∨ (deleteUsers s t us uname).1.status = 200 := by
  unfold deleteUsers
  repeat' split
  all_goals first | (left; rfl) | (right; rfl)

/-- C10: whenever a request to the orders, items or users endpoints is
answered with an error status (400, 401, 403, 404 or 409), the persisted
collections come back unchanged - every validation, authorization and
bounds check happens before the write. -/
theorem C10_no_write_on_error (sessions : SessTable) (tok : Option String)
    (orders : List Order) (items : List String) (users : List User)
    (idx : Option Int) (ob : BodyP OrderPayload) (ib : BodyP ItemPayload)
    (nb : BodyP UserNewPayload) (ub : BodyP UserUpdPayload) (uname fresh : String) :
    (errStatus (postOrders sessions tok orders ob).1.status →
      (postOrders sessions tok orders ob).2 = orders) ∧
    (errStatus (putOrders sessions tok orders idx ob).1.status →
      (putOrders sessions tok orders idx ob).2 = orders) ∧
    (errStatus (deleteOrders sessions tok orders idx).1.status →
      (deleteOrders sessions tok orders idx).2 = orders) ∧
    (errStatus (postItems sessions tok items ib).1.status →
      (postItems sessions tok items ib).2 = items) ∧
    (errStatus (putItems sessions tok items orders idx ib).1.status →
      (putItems sessions tok items orders idx ib).2.1 = items ∧
      (putItems sessions tok items orders idx ib).2.2 = orders) ∧
    (errStatus (postUsers sessions tok users nb fresh).1.status →
      (postUsers sessions tok users nb fresh).2 = users) ∧
    (errStatus (putUsers sessions tok users uname ub fresh).1.status →
      (putUsers sessions tok users uname ub fresh).2 = users) ∧
    (errStatus (deleteUsers sessions tok users uname).1.status →
      (deleteUsers sessions tok users uname).2 = users) := by
  refine ⟨?_, ?_, ?_, ?_, ?_, ?_, ?_, ?_⟩
  · intro h
    rcases postOrders_state sessions tok orders ob with hst | hsucc
    · exact hst
    · rw [hsucc] at h; simp [errStatus] at h
  · intro h
    rcases putOrders_state sessions tok orders idx ob with hst | hsucc
    · exact hst
    · rw [hsucc] at h; simp [errStatus] at h
  · intro h
    rcases deleteOrders_state sessions tok orders idx with hst | hsucc
    · exact hst
    · rw [hsucc] at h; simp [errStatus] at h
  · intro h
    rcases postItems_state sessions tok items ib with hst | hsucc
    · exact hst
    · rw [hsucc] at h; simp [errStatus] at h
  · intro h
    rcases putItems_state sessions tok items orders idx ib with hst | hsucc
    · exact hst
    · rw [hsucc] at h; simp [errStatus] at h
  · intro h
    rcases postUsers_state sessions tok users nb fresh with hst | hsucc
    · exact hst
    · rw [hsucc] at h; simp [errStatus] at h
  · intro h
    rcases putUsers_state sessions tok users uname ub fresh with hst | hsucc
    · exact hst
    · rw [hsucc] at h; simp [errStatus] at h
  · intro h
    rcases deleteUsers_state sessions tok users uname with hst | hsucc
    · exact hst
    · rw [hsucc] at h; simp [errStatus] at h

/-- Witness for C10 at concrete inputs: an unauthorized order append and a
duplicate-username creation leave the collections unchanged. -/
theorem C10_no_write_on_error_witness :
    (postOrders [] none [⟨"Rye", 1⟩] (.parsed ⟨some "Rye", some 2⟩)).2 = [⟨"Rye", 1⟩] ∧
    (postUsers [("t", ⟨"a", "admin"⟩)] (some "t")
        [⟨"bob", "user", ⟨"pbkdf2_sha256", 1, "s", "h"⟩⟩]
        (.parsed ⟨some "bob", some "pw", none⟩) "salt").2
      = [⟨"bob", "user", ⟨"pbkdf2_sha256", 1, "s", "h"⟩⟩] :=
  ⟨(C10_no_write_on_error [] none [⟨"Rye", 1⟩] [] [] none
      (.parsed ⟨some "Rye", some 2⟩) .parseError .parseError .parseError "x" "s").1
      (by right; left; decide),
   ((C10_no_write_on_error [("t", ⟨"a", "admin"⟩)] (some "t") [] []
      [⟨"bob", "user", ⟨"pbkdf2_sha256", 1, "s", "h"⟩⟩] none .parseError .parseError
      (.parsed ⟨some "bob", some "pw", none⟩) .parseError "x" "salt").2.2.2.2.2.1
      (by right; right; right; right; decide))⟩

end BreadOrder
